import Mathlib

/-!
Shallow embedding of the refresh-token session-management core of the
repository (src/app/auth.py and src/app/routers/token.py).

Modelling conventions:
* Instants (`datetime.utcnow()`, `expires_at`, `created_at`) are integers;
  the current instant is passed explicitly as `nowT`.
* The token table (`refresh_tokens`) is a `List RefreshToken` in insertion
  order: `query(...).first()` is `List.head?`, `.all()` with a filter is
  `List.filter`.
* The PBKDF2-HMAC-SHA256 digest `hash_refresh_token` is an abstract
  deterministic function `hash : String → String`, passed as a parameter;
  `secrets.compare_digest` is string equality (the constant-time aspect has
  no functional content).
* Nondeterministic inputs of the code (the random UUID from
  `generate_refresh_token`, the jittered expiry instant, the fresh primary
  key assigned by the database, the request's user-agent and client IP) are
  passed as explicit parameters.
* A record whose `token_hash` column is NULL / absent (the legacy unhashed
  schema) is modelled with `token_hash = none`.
* The ORM class `models.RefreshToken` is declared outside the files at hand;
  its columns are taken from the table definitions in
  src/update_refresh_tokens_schema.py (id, token_hash, user_id, expires_at,
  revoked with default 0, created_at, device_info, ip_address).
-/

/-- A row of the `refresh_tokens` table. -/
structure RefreshToken where
  id : Nat
  token_hash : Option String
  user_id : Int
  expires_at : Int
  revoked : Bool
  created_at : Int
  device_info : Option String
  ip_address : Option String
  deriving DecidableEq

/-- A row of the `admin_users` table (the fields the token router reads). -/
structure AdminUser where
  id : Int
  username : String
  deriving DecidableEq

/-- The primary keys currently present in a store. -/
def ids (store : List RefreshToken) : List Nat :=
  store.map (fun t => t.id)

/-! ### `is_valid_token_format` (src/app/auth.py lines 82-86)

`re.match(r'^[0-9a-f]{8}-[0-9a-f]{4}-4[0-9a-f]{3}-[89ab][0-9a-f]{3}-[0-9a-f]{12}$', token, re.I)`.
`re.I` makes every hex class case-insensitive; `$` also matches just before a
single trailing newline, which `is_valid_token_format` therefore accepts. -/

/-- `[0-9a-f]` under `re.I`. -/
def isHexCharI (c : Char) : Bool :=
  ('0' ≤ c && c ≤ '9') || ('a' ≤ c && c ≤ 'f') || ('A' ≤ c && c ≤ 'F')

/-- `[89ab]` under `re.I`. -/
def isUuidVariantChar (c : Char) : Bool :=
  c == '8' || c == '9' || c == 'a' || c == 'b' || c == 'A' || c == 'B'

/-- Consume exactly `n` case-insensitive hex digits. -/
def hexRun : Nat → List Char → Option (List Char)
  | 0, cs => some cs
  | _ + 1, [] => none
  | n + 1, c :: cs => if isHexCharI c then hexRun n cs else none

/-- Consume a literal hyphen. -/
def expectDash : List Char → Option (List Char)
  | '-' :: cs => some cs
  | _ => none

/-- Consume the literal version digit `4`. -/
def expectVersionFour : List Char → Option (List Char)
  | '4' :: cs => some cs
  | _ => none

/-- Consume one `[89ab]` (case-insensitive) variant character. -/
def expectVariant : List Char → Option (List Char)
  | c :: cs => if isUuidVariantChar c then some cs else none
  | [] => none

/-- Consume the whole UUIDv4 pattern, returning the remainder. -/
def uuidRemainder (cs0 : List Char) : Option (List Char) := do
  let cs ← hexRun 8 cs0
  let cs ← expectDash cs
  let cs ← hexRun 4 cs
  let cs ← expectDash cs
  let cs ← expectVersionFour cs
  let cs ← hexRun 3 cs
  let cs ← expectDash cs
  let cs ← expectVariant cs
  let cs ← hexRun 3 cs
  let cs ← expectDash cs
  hexRun 12 cs

/-- `is_valid_token_format` (auth.py:82-86): the anchored, case-insensitive
UUIDv4 regex; `$` also accepts one trailing newline. -/
def is_valid_token_format (tok : String) : Bool :=
  match uuidRemainder tok.data with
  | some [] => true
  | some ['\n'] => true
  | _ => false

/-! ### `verify_refresh_token` (src/app/auth.py lines 362-400)

The Python loop `for token in potential_tokens: if
secrets.compare_digest(token.token_hash, token_hash)` raises `TypeError` on a
row whose `token_hash` is NULL; the surrounding `except` turns that into
`None`, which is what the `none`-hash branch below returns. -/

/-- The digest scan of the hashed branch of `verify_refresh_token`. -/
def scanForDigest (digest : String) : List RefreshToken → Option RefreshToken
  | [] => none
  | t :: ts =>
    match t.token_hash with
    | none => none
    | some h => if h = digest then some t else scanForDigest digest ts

/-- `verify_refresh_token` (auth.py:362-400) together with the number of
store queries it issues (`db.query(...)` calls): the format guard returns
before any store access; otherwise the sample query and one further query
run. -/
def verifyTraced (hash : String → String) (nowT : Int)
    (store : List RefreshToken) (refresh_token : String) :
    Option RefreshToken × Nat :=
  if refresh_token = "" ∨ is_valid_token_format refresh_token = false then
    (none, 0)
  else
    let token_hash := hash refresh_token
    let sample_token := store.head?
    let has_token_hash :=
      match sample_token with
      | some t => t.token_hash.isSome
      | none => false
    if has_token_hash then
      let potential_tokens :=
        store.filter (fun t => decide (t.revoked = false ∧ nowT < t.expires_at))
      (scanForDigest token_hash potential_tokens, 2)
    else
      ((store.filter
          (fun t => decide (0 < t.user_id ∧ t.revoked = false ∧ nowT < t.expires_at))).head?,
       2)

/-- `verify_refresh_token`, result only. -/
def verify_refresh_token (hash : String → String) (nowT : Int)
    (store : List RefreshToken) (refresh_token : String) :
    Option RefreshToken :=
  (verifyTraced hash nowT store refresh_token).1

/-! ### `create_refresh_token` (src/app/auth.py lines 159-228) -/

/-- `create_refresh_token` (auth.py:159-228). `raw` is the value returned by
`generate_refresh_token()`, `expiresAt` the jittered
`utcnow() + timedelta(days=base_days + jitter)`, `newId` the primary key the
database assigns, `hasHashColumn` whether the `token_hash` column exists
(the inner `except` creates the row without a hash when it is missing).
Returns the raw token, the committed record and the new store. -/
def create_refresh_token (hash : String → String) (raw : String)
    (user_id : Int) (expiresAt createdAt : Int)
    (device_info ip_address : Option String) (newId : Nat)
    (hasHashColumn : Bool) (store : List RefreshToken) :
    String × RefreshToken × List RefreshToken :=
  let r0 : RefreshToken :=
    { id := newId
      token_hash := if hasHashColumn then some (hash raw) else none
      user_id := user_id
      expires_at := expiresAt
      revoked := false
      created_at := createdAt
      device_info := device_info
      ip_address := ip_address }
  (raw, r0, store ++ [r0])

/-! ### `revoke_refresh_token` (src/app/auth.py lines 230-251) -/

/-- Set `revoked := true` on the first row with the given primary key
(`query(...).filter(id == token_id).with_for_update().first()` then
`db_token.revoked = True`). -/
def setRevokedFirst (token_id : Nat) : List RefreshToken → List RefreshToken
  | [] => []
  | t :: ts =>
    if t.id = token_id then { t with revoked := true } :: ts
    else t :: setRevokedFirst token_id ts

/-- `revoke_refresh_token` (auth.py:230-251): returns whether a row with the
id was found, and the committed store. -/
def revoke_refresh_token (token_id : Nat) (store : List RefreshToken) :
    Bool × List RefreshToken :=
  match store.find? (fun t => decide (t.id = token_id)) with
  | none => (false, store)
  | some _ => (true, setRevokedFirst token_id store)

/-! ### `revoke_all_user_tokens` (src/app/auth.py lines 253-274) -/

/-- `revoke_all_user_tokens` (auth.py:253-274): bulk
`filter(user_id == uid, revoked == False).update(revoked = True)`; the filter
does not mention `expires_at`. Returns the update's row count and the store. -/
def revoke_all_user_tokens (uid : Int) (store : List RefreshToken) :
    Nat × List RefreshToken :=
  ((store.filter (fun t => decide (t.user_id = uid ∧ t.revoked = false))).length,
   store.map (fun t =>
     if t.user_id = uid ∧ t.revoked = false then { t with revoked := true } else t))

/-! ### `clean_expired_tokens` (src/app/auth.py lines 344-360) -/

/-- `clean_expired_tokens` (auth.py:344-360):
`filter(expires_at < utcnow()).delete()`; returns the number of deleted rows
and the remaining store. -/
def clean_expired_tokens (nowT : Int) (store : List RefreshToken) :
    Nat × List RefreshToken :=
  ((store.filter (fun t => decide (t.expires_at < nowT))).length,
   store.filter (fun t => decide (¬ t.expires_at < nowT)))

/-! ### `rotate_refresh_token` (src/app/auth.py lines 276-342)

The body runs inside `db.begin_nested()`; every failure path
(`ValueError("Token not found")`, or any database error while flushing the
new row — modelled by the `createFails` oracle) executes
`transaction.rollback(); db.rollback()` and re-raises, leaving the store
unchanged. -/

/-- The successor record built inline by `rotate_refresh_token`; rotation
always stores a hash (it has no missing-column fallback). -/
def mkRotatedRecord (hash : String → String) (raw : String) (uid : Int)
    (expiresAt createdAt : Int) (device_info ip_address : Option String)
    (newId : Nat) : RefreshToken :=
  { id := newId
    token_hash := some (hash raw)
    user_id := uid
    expires_at := expiresAt
    revoked := false
    created_at := createdAt
    device_info := device_info
    ip_address := ip_address }

/-- `rotate_refresh_token` (auth.py:276-342): revoke the old row and insert
the successor in one transaction; on any failure the store is the rollback
of the transaction, i.e. unchanged. -/
def rotate_refresh_token (hash : String → String) (old_token_id : Nat)
    (raw : String) (uid : Int) (expiresAt createdAt : Int)
    (device_info ip_address : Option String) (newId : Nat)
    (createFails : Bool) (store : List RefreshToken) :
    Except String (String × RefreshToken) × List RefreshToken :=
  match store.find? (fun t => decide (t.id = old_token_id)) with
  | none => (Except.error "Token not found", store)
  | some _ =>
    if createFails then (Except.error "database error", store)
    else
      let newRec := mkRotatedRecord hash raw uid expiresAt createdAt
        device_info ip_address newId
      (Except.ok (raw, newRec), setRevokedFirst old_token_id store ++ [newRec])

/-! ### The token router (src/app/routers/token.py) -/

/-- `ACCESS_TOKEN_EXPIRE_MINUTES` (src/app/config.py:14, default). -/
def ACCESS_TOKEN_EXPIRE_MINUTES : Int := 1800

/-- The JSON body of `POST /refresh` on success (schemas.Token). -/
structure TokenResponse where
  access_token : String
  token_type : String
  refresh_token : String
  expires_in : Int
  deriving DecidableEq

/-- Outcome of the `POST /refresh` handler: a token body, or an HTTP error
status with the `{code, message}` detail object. -/
inductive RefreshOutcome where
  | ok (resp : TokenResponse)
  | err (statusCode : Nat) (code : String) (message : String)
  deriving DecidableEq

/-- Arguments of the successor token built during rotation (random raw
token, jittered expiry, request metadata, fresh primary key). -/
structure RotateArgs where
  raw : String
  expiresAt : Int
  createdAt : Int
  device_info : Option String
  ip_address : Option String
  newId : Nat

/-- `GET /sessions` (`get_active_sessions`, token.py:288-317). The third
filter in the source is `models.RefreshToken.expires_at > timedelta(days=0)`:
it compares the expiry instant with the zero duration, not with
`datetime.utcnow()`, which here is `0 < t.expires_at`. -/
def get_active_sessions (current_user_id : Int) (store : List RefreshToken) :
    List RefreshToken :=
  store.filter (fun t =>
    decide (t.user_id = current_user_id ∧ t.revoked = false ∧ 0 < t.expires_at))

/-- `POST /refresh` (`refresh_access_token`, token.py:38-161): format guard
(400), verify (401 invalid_token), user lookup (401 user_not_found, revoking
the presented record first), rotation (500 token_rotation_error on failure),
then the new access/refresh token pair. `jwtEncode` abstracts
`create_access_token({"sub": user.username})`. -/
def refresh_access_token (hash : String → String) (jwtEncode : String → String)
    (nowT : Int) (users : List AdminUser) (a : RotateArgs)
    (rotateFails : Bool) (tok : String) (store : List RefreshToken) :
    RefreshOutcome × List RefreshToken :=
  if is_valid_token_format tok = false then
    (RefreshOutcome.err 400 "invalid_token_format"
      "The refresh token format is invalid", store)
  else
    match verify_refresh_token hash nowT store tok with
    | none =>
      (RefreshOutcome.err 401 "invalid_token"
        "Invalid or expired refresh token", store)
    | some db_token =>
      match users.find? (fun u => decide (u.id = db_token.user_id)) with
      | none =>
        (RefreshOutcome.err 401 "user_not_found"
          "User associated with token not found",
         (revoke_refresh_token db_token.id store).2)
      | some user =>
        match rotate_refresh_token hash db_token.id a.raw user.id a.expiresAt
            a.createdAt a.device_info a.ip_address a.newId rotateFails store with
        | (Except.error _, store1) =>
          (RefreshOutcome.err 500 "token_rotation_error"
            "Failed to rotate refresh token", store1)
        | (Except.ok (newRaw, _), store1) =>
          (RefreshOutcome.ok
            { access_token := jwtEncode user.username
              token_type := "bearer"
              refresh_token := newRaw
              expires_in := ACCESS_TOKEN_EXPIRE_MINUTES * 60 }, store1)

/-! ### Service operations as a step relation (for the monotonicity claim) -/

/-- One invocation of a store-mutating operation of the service. -/
inductive Op where
  | create (raw : String) (uid : Int) (expiresAt createdAt : Int)
      (device_info ip_address : Option String) (newId : Nat)
      (hasHashColumn : Bool)
  | revoke (token_id : Nat)
  | revokeAll (uid : Int)
  | rotate (old_token_id : Nat) (raw : String) (uid : Int)
      (expiresAt createdAt : Int) (device_info ip_address : Option String)
      (newId : Nat) (createFails : Bool)
  | sweep (nowT : Int)

/-- Effect of one operation on the store. -/
def applyOp (hash : String → String) : Op → List RefreshToken → List RefreshToken
  | Op.create raw uid e c dev ip nid hasCol, store =>
    (create_refresh_token hash raw uid e c dev ip nid hasCol store).2.2
  | Op.revoke i, store => (revoke_refresh_token i store).2
  | Op.revokeAll uid, store => (revoke_all_user_tokens uid store).2
  | Op.rotate oldId raw uid e c dev ip nid fails, store =>
    (rotate_refresh_token hash oldId raw uid e c dev ip nid fails store).2
  | Op.sweep nowT, store => (clean_expired_tokens nowT store).2

/-- Effect of a sequence of operations, first to last. -/
def applyOps (hash : String → String) : List Op → List RefreshToken → List RefreshToken
  | [], store => store
  | op :: ops, store => applyOps hash ops (applyOp hash op store)

/-- Side conditions under which an operation is tracked against a digest `d`
and a record id `rid`: creations store a hash, use raw tokens whose digest is
not `d` (fresh randomness), and take primary keys that are fresh and are not
`rid`. -/
def opOk (hash : String → String) (d : String) (rid : Nat) :
    Op → List RefreshToken → Prop
  | Op.create raw _ _ _ _ _ nid hasCol, store =>
    hash raw ≠ d ∧ hasCol = true ∧ nid ∉ ids store ∧ nid ≠ rid
  | Op.rotate _ raw _ _ _ _ _ nid _, store =>
    hash raw ≠ d ∧ nid ∉ ids store ∧ nid ≠ rid
  | _, _ => True

/-- `opOk` holding along a whole sequence. -/
def opsOk (hash : String → String) (d : String) (rid : Nat) :
    List Op → List RefreshToken → Prop
  | [], _ => True
  | op :: ops, store => opOk hash d rid op store ∧ opsOk hash d rid ops (applyOp hash op store)

/-- Invariant carried through a run: every row has a stored hash, every row
carrying digest `d` is revoked, and every row with id `rid` is revoked. -/
def GoodStore (d : String) (rid : Nat) (store : List RefreshToken) : Prop :=
  (∀ t ∈ store, t.token_hash.isSome = true) ∧
  (∀ t ∈ store, t.token_hash = some d → t.revoked = true) ∧
  (∀ t ∈ store, t.id = rid → t.revoked = true)

/-! ### Helper lemmas -/

theorem auxHeadMem {α : Type _} {l : List α} {a : α} (h : l.head? = some a) :
    a ∈ l := by
  cases l with
  | nil => simp at h
  | cons x xs => simp at h; simp [h]

theorem scanForDigest_eq_none (d : String) (l : List RefreshToken)
    (h : ∀ t ∈ l, t.token_hash.isSome = true ∧ t.token_hash ≠ some d) :
    scanForDigest d l = none := by
  induction l with
  | nil => rfl
  | cons t ts ih =>
    obtain ⟨hs, hne⟩ := h t (by simp)
    cases htk : t.token_hash with
    | none => simp [scanForDigest, htk]
    | some x =>
      have hxd : ¬ x = d := by
        intro hxd
        exact hne (by rw [htk, hxd])
      simp only [scanForDigest, htk, if_neg hxd]
      exact ih (fun u hu => h u (by simp [hu]))

theorem scanForDigest_append (d : String) (l1 l2 : List RefreshToken)
    (h : ∀ t ∈ l1, t.token_hash.isSome = true ∧ t.token_hash ≠ some d) :
    scanForDigest d (l1 ++ l2) = scanForDigest d l2 := by
  induction l1 with
  | nil => rfl
  | cons t ts ih =>
    obtain ⟨hs, hne⟩ := h t (by simp)
    cases htk : t.token_hash with
    | none => simp [Option.isSome, htk] at hs
    | some x =>
      have hxd : ¬ x = d := by
        intro hxd
        exact hne (by rw [htk, hxd])
      simp only [List.cons_append, scanForDigest, htk, if_neg hxd]
      exact ih (fun u hu => h u (by simp [hu]))

theorem scanForDigest_mem (d : String) (l : List RefreshToken) (t : RefreshToken)
    (h : scanForDigest d l = some t) : t ∈ l := by
  induction l with
  | nil => simp [scanForDigest] at h
  | cons a ts ih =>
    cases htk : a.token_hash with
    | none => simp [scanForDigest, htk] at h
    | some x =>
      simp only [scanForDigest, htk] at h
      by_cases hxd : x = d
      · rw [if_pos hxd] at h
        simp at h
        simp [h]
      · rw [if_neg hxd] at h
        exact List.mem_cons_of_mem a (ih h)

theorem setRevokedFirst_shape (i : Nat) (l : List RefreshToken) :
    ∀ t ∈ setRevokedFirst i l, ∃ t0 ∈ l, t = t0 ∨ t = { t0 with revoked := true } := by
  induction l with
  | nil => intro t ht; simp [setRevokedFirst] at ht
  | cons a ts ih =>
    intro t ht
    by_cases h : a.id = i
    · simp only [setRevokedFirst, if_pos h] at ht
      rcases List.mem_cons.mp ht with h1 | h1
      · exact ⟨a, by simp, Or.inr h1⟩
      · exact ⟨t, by simp [h1], Or.inl rfl⟩
    · simp only [setRevokedFirst, if_neg h] at ht
      rcases List.mem_cons.mp ht with h1 | h1
      · exact ⟨a, by simp, Or.inl h1⟩
      · obtain ⟨t0, ht0, hor⟩ := ih t h1
        exact ⟨t0, by simp [ht0], hor⟩

theorem setRevokedFirst_id_revoked (i : Nat) (l : List RefreshToken)
    (hnd : (ids l).Nodup) (hex : ∃ r ∈ l, r.id = i) :
    ∀ t ∈ setRevokedFirst i l, t.id = i → t.revoked = true := by
  induction l with
  | nil => simp [setRevokedFirst]
  | cons a ts ih =>
    simp only [ids, List.map_cons, List.nodup_cons] at hnd
    intro t ht hti
    by_cases h : a.id = i
    · simp only [setRevokedFirst, if_pos h] at ht
      rcases List.mem_cons.mp ht with h1 | h1
      · rw [h1]
      · exfalso
        exact hnd.1 (List.mem_map.mpr ⟨t, h1, by rw [hti, h]⟩)
    · simp only [setRevokedFirst, if_neg h] at ht
      rcases List.mem_cons.mp ht with h1 | h1
      · exact absurd (h1 ▸ hti) h
      · obtain ⟨r, hr, hri⟩ := hex
        rcases List.mem_cons.mp hr with h2 | h2
        · exact absurd (h2 ▸ hri) h
        · exact ih hnd.2 ⟨r, h2, hri⟩ t h1 hti

theorem setRevokedFirst_preserves (i : Nat) (l : List RefreshToken) :
    ∀ t ∈ setRevokedFirst i l,
      ∃ t0 ∈ l, t.id = t0.id ∧ t.token_hash = t0.token_hash ∧
        t.user_id = t0.user_id ∧ (t0.revoked = true → t.revoked = true) := by
  intro t ht
  obtain ⟨t0, ht0, hor⟩ := setRevokedFirst_shape i l t ht
  rcases hor with h | h
  · exact ⟨t0, ht0, by simp [h]⟩
  · exact ⟨t0, ht0, by simp [h]⟩

theorem revoke_refresh_token_found (i : Nat) (store : List RefreshToken)
    (hex : ∃ r ∈ store, r.id = i) :
    (revoke_refresh_token i store).1 = true ∧
    (revoke_refresh_token i store).2 = setRevokedFirst i store := by
  unfold revoke_refresh_token
  cases hf : store.find? (fun t => decide (t.id = i)) with
  | none =>
    exfalso
    obtain ⟨r, hr, hri⟩ := hex
    have := List.find?_eq_none.mp hf r hr
    simp [hri] at this
  | some _ => simp

theorem guard_false_of_fmt {tok : String}
    (hfmt : is_valid_token_format tok = true) :
    ¬ (tok = "" ∨ is_valid_token_format tok = false) := by
  rintro (h | h)
  · subst h; exact absurd hfmt (by decide)
  · rw [hfmt] at h; cases h

theorem verify_invalid_fmt (hash : String → String) (nowT : Int)
    (store : List RefreshToken) (tok : String)
    (hfmt : is_valid_token_format tok = false) :
    verifyTraced hash nowT store tok = (none, 0) := by
  unfold verifyTraced
  rw [if_pos (Or.inr hfmt)]

theorem verify_hashed (hash : String → String) (nowT : Int) (a : RefreshToken)
    (ts : List RefreshToken) (tok : String)
    (hfmt : is_valid_token_format tok = true)
    (ha : a.token_hash.isSome = true) :
    verify_refresh_token hash nowT (a :: ts) tok =
      scanForDigest (hash tok)
        ((a :: ts).filter (fun t => decide (t.revoked = false ∧ nowT < t.expires_at))) := by
  unfold verify_refresh_token verifyTraced
  rw [if_neg (guard_false_of_fmt hfmt)]
  simp [ha]

theorem verify_fallback (hash : String → String) (nowT : Int)
    (store : List RefreshToken) (tok : String)
    (hfmt : is_valid_token_format tok = true)
    (hhead : ∀ a, store.head? = some a → a.token_hash = none) :
    verify_refresh_token hash nowT store tok =
      (store.filter
        (fun t => decide (0 < t.user_id ∧ t.revoked = false ∧ nowT < t.expires_at))).head? := by
  unfold verify_refresh_token verifyTraced
  rw [if_neg (guard_false_of_fmt hfmt)]
  cases store with
  | nil => simp
  | cons a ts =>
    have ha := hhead a (by simp)
    simp [ha]

theorem verify_none_of_all_stale (hash : String → String) (nowT : Int)
    (store : List RefreshToken) (tok : String)
    (hall : ∀ t ∈ store, t.token_hash.isSome = true)
    (hstale : ∀ t ∈ store, t.token_hash = some (hash tok) →
      t.revoked = true ∨ t.expires_at ≤ nowT) :
    verify_refresh_token hash nowT store tok = none := by
  rcases Bool.eq_false_or_eq_true (is_valid_token_format tok) with hfmt | hfmt
  swap
  · unfold verify_refresh_token
    rw [verify_invalid_fmt hash nowT store tok hfmt]
  · cases store with
    | nil =>
      rw [verify_fallback hash nowT [] tok hfmt (by intro a ha; simp at ha)]
      rfl
    | cons a ts =>
      rw [verify_hashed hash nowT a ts tok hfmt (hall a (by simp))]
      apply scanForDigest_eq_none
      intro t ht
      have htmem := List.mem_of_mem_filter ht
      rw [List.mem_filter] at ht
      obtain ⟨-, htp⟩ := ht
      simp only [decide_eq_true_eq] at htp
      refine ⟨hall t htmem, ?_⟩
      intro heq
      rcases hstale t htmem heq with h | h
      · rw [htp.1] at h; cases h
      · omega

theorem verify_mem (hash : String → String) (nowT : Int)
    (store : List RefreshToken) (tok : String) (r : RefreshToken)
    (h : verify_refresh_token hash nowT store tok = some r) : r ∈ store := by
  rcases Bool.eq_false_or_eq_true (is_valid_token_format tok) with hfmt | hfmt
  swap
  · unfold verify_refresh_token at h
    rw [verify_invalid_fmt hash nowT store tok hfmt] at h
    cases h
  · cases store with
    | nil =>
      rw [verify_fallback hash nowT [] tok hfmt (by intro a ha; simp at ha)] at h
      cases h
    | cons a ts =>
      cases hts : a.token_hash.isSome with
      | true =>
        rw [verify_hashed hash nowT a ts tok hfmt hts] at h
        exact List.mem_of_mem_filter (scanForDigest_mem _ _ _ h)
      | false =>
        have ha : a.token_hash = none := by
          cases htk : a.token_hash with
          | none => rfl
          | some x => rw [htk] at hts; cases hts
        rw [verify_fallback hash nowT (a :: ts) tok hfmt
          (by intro b hb; simp at hb; rw [← hb]; exact ha)] at h
        exact List.mem_of_mem_filter (auxHeadMem h)

theorem verify_append_fresh (hash : String → String) (nowT : Int)
    (store : List RefreshToken) (r0 : RefreshToken) (tok : String)
    (hfmt : is_valid_token_format tok = true)
    (hr0 : r0.token_hash = some (hash tok)) (hrev : r0.revoked = false)
    (hexp : nowT < r0.expires_at)
    (hall : ∀ t ∈ store, t.token_hash.isSome = true)
    (hfresh : ∀ t ∈ store, t.token_hash ≠ some (hash tok)) :
    verify_refresh_token hash nowT (store ++ [r0]) tok = some r0 := by
  cases store with
  | nil =>
    rw [List.nil_append]
    rw [verify_hashed hash nowT r0 [] tok hfmt (by rw [hr0]; rfl)]
    simp [List.filter, hrev, hexp, scanForDigest, hr0]
  | cons a ts =>
    rw [List.cons_append]
    rw [verify_hashed hash nowT a (ts ++ [r0]) tok hfmt (hall a (by simp))]
    rw [show a :: (ts ++ [r0]) = (a :: ts) ++ [r0] from rfl, List.filter_append]
    rw [scanForDigest_append]
    · simp [List.filter, hrev, hexp, scanForDigest, hr0]
    · intro t ht
      have htm := List.mem_of_mem_filter ht
      exact ⟨hall t htm, hfresh t htm⟩

/-- C1. Round-trip: `create_refresh_token` returning raw token `raw` and
record `rec`, followed immediately (no revoke, revoke-all, rotation in
between, and before the record's expiry instant) by
`verify_refresh_token` on `raw`, yields exactly the committed record —
in particular a record with the same id. Hypotheses: the raw token is a
UUIDv4 string (which `generate_refresh_token` always produces), the store
uses the hashed schema, and the fresh random token's digest does not
collide with a stored digest. -/
theorem issue_verify_roundtrip_c1 (hash : String → String) (raw : String)
    (uid : Int) (expiresAt createdAt nowT : Int) (dev ip : Option String)
    (newId : Nat) (store : List RefreshToken)
    (hfmt : is_valid_token_format raw = true)
    (hexp : nowT < expiresAt)
    (hall : ∀ t ∈ store, t.token_hash.isSome = true)
    (hfresh : ∀ t ∈ store, t.token_hash ≠ some (hash raw)) :
    verify_refresh_token hash nowT
        (create_refresh_token hash raw uid expiresAt createdAt dev ip newId true store).2.2
        (create_refresh_token hash raw uid expiresAt createdAt dev ip newId true store).1
      = some (create_refresh_token hash raw uid expiresAt createdAt dev ip newId true store).2.1 :=
  verify_append_fresh hash nowT store _ raw hfmt rfl rfl hexp hall hfresh

/-- C1 witness: issue for user 7 into an empty store, then verify at instant
0 (before the expiry instant 1). -/
theorem issue_verify_roundtrip_c1_witness :
    verify_refresh_token (fun s => s) 0
        (create_refresh_token (fun s => s) "123e4567-e89b-42d3-a456-426614174000"
          7 1 0 none none 1 true []).2.2
        (create_refresh_token (fun s => s) "123e4567-e89b-42d3-a456-426614174000"
          7 1 0 none none 1 true []).1
      = some (create_refresh_token (fun s => s) "123e4567-e89b-42d3-a456-426614174000"
          7 1 0 none none 1 true []).2.1 :=
  issue_verify_roundtrip_c1 (fun s => s) "123e4567-e89b-42d3-a456-426614174000"
    7 1 0 0 none none 1 [] (by decide) (by decide) (by simp) (by simp)

theorem goodStore_applyOp (hash : String → String) (d : String) (rid : Nat)
    (op : Op) (store : List RefreshToken)
    (hg : GoodStore d rid store) (hop : opOk hash d rid op store) :
    GoodStore d rid (applyOp hash op store) := by
  obtain ⟨h1, h2, h3⟩ := hg
  cases op with
  | create raw uid e c dev ip nid hasCol =>
    obtain ⟨hne, hcol, hnid, hrid⟩ := hop
    subst hcol
    refine ⟨?_, ?_, ?_⟩
    · intro t ht
      simp only [applyOp, create_refresh_token, List.mem_append,
        List.mem_singleton] at ht
      rcases ht with ht | rfl
      · exact h1 t ht
      · rfl
    · intro t ht heq
      simp only [applyOp, create_refresh_token, List.mem_append,
        List.mem_singleton] at ht
      rcases ht with ht | rfl
      · exact h2 t ht heq
      · exfalso
        apply hne
        simpa using heq
    · intro t ht hid
      simp only [applyOp, create_refresh_token, List.mem_append,
        List.mem_singleton] at ht
      rcases ht with ht | rfl
      · exact h3 t ht hid
      · exact absurd hid hrid
  | revoke i =>
    cases hf : store.find? (fun t => decide (t.id = i)) with
    | none =>
      have hst : applyOp hash (Op.revoke i) store = store := by
        simp [applyOp, revoke_refresh_token, hf]
      rw [hst]
      exact ⟨h1, h2, h3⟩
    | some u =>
      have hst : applyOp hash (Op.revoke i) store = setRevokedFirst i store := by
        simp [applyOp, revoke_refresh_token, hf]
      rw [hst]
      refine ⟨?_, ?_, ?_⟩
      · intro t ht
        obtain ⟨t0, ht0, hid, hth, hu, hrv⟩ := setRevokedFirst_preserves i store t ht
        rw [hth]
        exact h1 t0 ht0
      · intro t ht heq
        obtain ⟨t0, ht0, hid, hth, hu, hrv⟩ := setRevokedFirst_preserves i store t ht
        exact hrv (h2 t0 ht0 (hth ▸ heq))
      · intro t ht hid2
        obtain ⟨t0, ht0, hid, hth, hu, hrv⟩ := setRevokedFirst_preserves i store t ht
        exact hrv (h3 t0 ht0 (hid ▸ hid2))
  | revokeAll uid =>
    refine ⟨?_, ?_, ?_⟩
    · intro t ht
      simp only [applyOp, revoke_all_user_tokens] at ht
      obtain ⟨t0, ht0, hft⟩ := List.mem_map.mp ht
      by_cases hc : t0.user_id = uid ∧ t0.revoked = false
      · rw [if_pos hc] at hft; rw [← hft]; exact h1 t0 ht0
      · rw [if_neg hc] at hft; rw [← hft]; exact h1 t0 ht0
    · intro t ht heq
      simp only [applyOp, revoke_all_user_tokens] at ht
      obtain ⟨t0, ht0, hft⟩ := List.mem_map.mp ht
      by_cases hc : t0.user_id = uid ∧ t0.revoked = false
      · rw [if_pos hc] at hft; rw [← hft]
      · rw [if_neg hc] at hft
        rw [← hft] at heq ⊢
        exact h2 t0 ht0 heq
    · intro t ht hid
      simp only [applyOp, revoke_all_user_tokens] at ht
      obtain ⟨t0, ht0, hft⟩ := List.mem_map.mp ht
      by_cases hc : t0.user_id = uid ∧ t0.revoked = false
      · rw [if_pos hc] at hft; rw [← hft]
      · rw [if_neg hc] at hft
        rw [← hft] at hid ⊢
        exact h3 t0 ht0 hid
  | rotate oldId raw uid e c dev ip nid fails =>
    obtain ⟨hne, hnid, hrid⟩ := hop
    cases hf : store.find? (fun t => decide (t.id = oldId)) with
    | none =>
      have hst : applyOp hash (Op.rotate oldId raw uid e c dev ip nid fails) store
          = store := by
        simp [applyOp, rotate_refresh_token, hf]
      rw [hst]
      exact ⟨h1, h2, h3⟩
    | some u =>
      cases fails with
      | true =>
        have hst : applyOp hash (Op.rotate oldId raw uid e c dev ip nid true) store
            = store := by
          simp [applyOp, rotate_refresh_token, hf]
        rw [hst]
        exact ⟨h1, h2, h3⟩
      | false =>
        have hst : applyOp hash (Op.rotate oldId raw uid e c dev ip nid false) store
            = setRevokedFirst oldId store
              ++ [mkRotatedRecord hash raw uid e c dev ip nid] := by
          simp [applyOp, rotate_refresh_token, hf]
        rw [hst]
        refine ⟨?_, ?_, ?_⟩
        · intro t ht
          rcases List.mem_append.mp ht with ht | ht
          · obtain ⟨t0, ht0, hid, hth, hu, hrv⟩ :=
              setRevokedFirst_preserves oldId store t ht
            rw [hth]
            exact h1 t0 ht0
          · rw [List.mem_singleton.mp ht]
            rfl
        · intro t ht heq
          rcases List.mem_append.mp ht with ht | ht
          · obtain ⟨t0, ht0, hid, hth, hu, hrv⟩ :=
              setRevokedFirst_preserves oldId store t ht
            exact hrv (h2 t0 ht0 (hth ▸ heq))
          · rw [List.mem_singleton.mp ht] at heq
            exact absurd (by simpa [mkRotatedRecord] using heq) hne
        · intro t ht hid2
          rcases List.mem_append.mp ht with ht | ht
          · obtain ⟨t0, ht0, hid, hth, hu, hrv⟩ :=
              setRevokedFirst_preserves oldId store t ht
            exact hrv (h3 t0 ht0 (hid ▸ hid2))
          · rw [List.mem_singleton.mp ht] at hid2
            exact absurd hid2 hrid
  | sweep nowT =>
    refine ⟨?_, ?_, ?_⟩
    · intro t ht
      simp only [applyOp, clean_expired_tokens] at ht
      exact h1 t (List.mem_of_mem_filter ht)
    · intro t ht heq
      simp only [applyOp, clean_expired_tokens] at ht
      exact h2 t (List.mem_of_mem_filter ht) heq
    · intro t ht hid
      simp only [applyOp, clean_expired_tokens] at ht
      exact h3 t (List.mem_of_mem_filter ht) hid

theorem goodStore_applyOps (hash : String → String) (d : String) (rid : Nat)
    (ops : List Op) (store : List RefreshToken)
    (hg : GoodStore d rid store) (hops : opsOk hash d rid ops store) :
    GoodStore d rid (applyOps hash ops store) := by
  induction ops generalizing store with
  | nil => exact hg
  | cons op ops ih =>
    obtain ⟨hop, hops2⟩ := hops
    exact ih (applyOp hash op store) (goodStore_applyOp hash d rid op store hg hop) hops2

/-- C2. Revocation monotonicity: once `revoke_refresh_token` succeeds on the
id of the record `r` holding the digest of `raw`, then after any further
sequence of service operations (creations and rotations using fresh random
tokens, fresh primary keys, and the hashed schema), `verify_refresh_token`
presenting `raw` returns not-found, and every record with `r`'s id still
has `revoked = true` — the flag never reverts to false. -/
theorem revocation_monotonic_c2 (hash : String → String) (raw : String)
    (r : RefreshToken) (store : List RefreshToken) (ops : List Op) (nowT : Int)
    (hmem : r ∈ store)
    (hdig : r.token_hash = some (hash raw))
    (huniq : ∀ t ∈ store, t.token_hash = some (hash raw) → t.id = r.id)
    (hall : ∀ t ∈ store, t.token_hash.isSome = true)
    (hnodup : (ids store).Nodup)
    (hops : opsOk hash (hash raw) r.id ops (revoke_refresh_token r.id store).2) :
    (revoke_refresh_token r.id store).1 = true ∧
    verify_refresh_token hash nowT
      (applyOps hash ops (revoke_refresh_token r.id store).2) raw = none ∧
    ∀ t ∈ applyOps hash ops (revoke_refresh_token r.id store).2,
      t.id = r.id → t.revoked = true := by
  obtain ⟨hfound, hstore⟩ := revoke_refresh_token_found r.id store ⟨r, hmem, rfl⟩
  have hgood1 : GoodStore (hash raw) r.id (revoke_refresh_token r.id store).2 := by
    rw [hstore]
    have hidrev := setRevokedFirst_id_revoked r.id store hnodup ⟨r, hmem, rfl⟩
    refine ⟨?_, ?_, ?_⟩
    · intro t ht
      obtain ⟨t0, ht0, hid, hth, hu, hrv⟩ := setRevokedFirst_preserves r.id store t ht
      rw [hth]
      exact hall t0 ht0
    · intro t ht heq
      obtain ⟨t0, ht0, hid, hth, hu, hrv⟩ := setRevokedFirst_preserves r.id store t ht
      exact hidrev t ht (hid.trans (huniq t0 ht0 (hth ▸ heq)))
    · intro t ht hid2
      exact hidrev t ht hid2
  have hgood2 := goodStore_applyOps hash (hash raw) r.id ops
    (revoke_refresh_token r.id store).2 hgood1 hops
  refine ⟨hfound, ?_, hgood2.2.2⟩
  exact verify_none_of_all_stale hash nowT _ raw hgood2.1
    (fun t ht heq => Or.inl (hgood2.2.1 t ht heq))

/-- The concrete record used by the C2 witness. -/
def c2rec : RefreshToken :=
  { id := 1, token_hash := some "123e4567-e89b-42d3-a456-426614174000",
    user_id := 7, expires_at := 100, revoked := false, created_at := 0,
    device_info := none, ip_address := none }

/-- C2 witness: revoke the single active record, run a further (no-op)
revoke, and observe that verification of its raw token fails and the flag
stays set. -/
theorem revocation_monotonic_c2_witness :
    (revoke_refresh_token 1 [c2rec]).1 = true ∧
    verify_refresh_token (fun s => s) 0
      (applyOps (fun s => s) [Op.revoke 99] (revoke_refresh_token 1 [c2rec]).2)
      "123e4567-e89b-42d3-a456-426614174000" = none ∧
    ∀ t ∈ applyOps (fun s => s) [Op.revoke 99] (revoke_refresh_token 1 [c2rec]).2,
      t.id = 1 → t.revoked = true :=
  revocation_monotonic_c2 (fun s => s) "123e4567-e89b-42d3-a456-426614174000"
    c2rec [c2rec] [Op.revoke 99] 0 (by decide) (by decide) (by decide)
    (by decide) (by decide) (by exact ⟨trivial, trivial⟩)

/-- C3. Rotation atomicity: if any step of `rotate_refresh_token` fails —
the old id is not found, or committing the successor fails — the
transaction rolls back and the store is unchanged (in particular the old
record is not left revoked without a committed successor); on success the
old record is revoked and the successor is committed, together. -/
theorem rotate_atomic_c3 (hash : String → String) (oldId : Nat) (raw : String)
    (uid : Int) (e c : Int) (dev ip : Option String) (nid : Nat) (fails : Bool)
    (store : List RefreshToken)
    (hnodup : (ids store).Nodup) (hnid : nid ≠ oldId) :
    (∀ msg, (rotate_refresh_token hash oldId raw uid e c dev ip nid fails store).1
        = Except.error msg →
      (rotate_refresh_token hash oldId raw uid e c dev ip nid fails store).2 = store) ∧
    (∀ res, (rotate_refresh_token hash oldId raw uid e c dev ip nid fails store).1
        = Except.ok res →
      (∀ t ∈ (rotate_refresh_token hash oldId raw uid e c dev ip nid fails store).2,
        t.id = oldId → t.revoked = true) ∧
      (∃ t ∈ (rotate_refresh_token hash oldId raw uid e c dev ip nid fails store).2,
        t.id = nid ∧ t.revoked = false ∧ t.token_hash = some (hash raw))) := by
  unfold rotate_refresh_token
  cases hf : store.find? (fun t => decide (t.id = oldId)) with
  | none =>
    refine ⟨fun msg _ => rfl, fun res hres => ?_⟩
    cases hres
  | some u =>
    have hu : u.id = oldId := by
      have := List.find?_some hf
      simpa using this
    have humem : u ∈ store := List.mem_of_find?_eq_some hf
    cases fails with
    | true =>
      refine ⟨fun msg _ => rfl, fun res hres => ?_⟩
      cases hres
    | false =>
      refine ⟨fun msg hres => ?_, fun res hres => ⟨?_, ?_⟩⟩
      · cases hres
      · intro t ht hid
        rcases List.mem_append.mp ht with ht | ht
        · exact setRevokedFirst_id_revoked oldId store hnodup ⟨u, humem, hu⟩ t ht hid
        · rw [List.mem_singleton.mp ht] at hid
          exact absurd hid hnid
      · exact ⟨mkRotatedRecord hash raw uid e c dev ip nid,
          List.mem_append.mpr (Or.inr (List.mem_singleton.mpr rfl)), rfl, rfl, rfl⟩

/-- A non-revoked, unexpired sample record (hash digest `"h1"`). -/
def activeRec : RefreshToken :=
  { id := 1, token_hash := some "h1", user_id := 7, expires_at := 100,
    revoked := false, created_at := 0, device_info := none, ip_address := none }

/-- C3 witness: rotating a missing id over `[activeRec]` leaves the store
unchanged; rotating `activeRec` revokes it. -/
theorem rotate_atomic_c3_witness :
    (rotate_refresh_token (fun s => s) 5 "123e4567-e89b-42d3-a456-426614174000"
        7 200 0 none none 2 false [activeRec]).2 = [activeRec] ∧
    ∀ t ∈ (rotate_refresh_token (fun s => s) 1 "123e4567-e89b-42d3-a456-426614174000"
        7 200 0 none none 2 false [activeRec]).2, t.id = 1 → t.revoked = true :=
  ⟨(rotate_atomic_c3 (fun s => s) 5 "123e4567-e89b-42d3-a456-426614174000"
      7 200 0 none none 2 false [activeRec] (by decide) (by decide)).1
      "Token not found" rfl,
   ((rotate_atomic_c3 (fun s => s) 1 "123e4567-e89b-42d3-a456-426614174000"
      7 200 0 none none 2 false [activeRec] (by decide) (by decide)).2
      ("123e4567-e89b-42d3-a456-426614174000",
        mkRotatedRecord (fun s => s) "123e4567-e89b-42d3-a456-426614174000"
          7 200 0 none none 2) rfl).1⟩

/-- C4. `verify_refresh_token` error handling: a token failing the format
precondition is rejected with zero store queries; the function is total and
returns either not-found or a record of the store; and over a hashed store
it returns not-found whenever every record carrying the presented digest is
revoked or expired — covering no-match, match-but-revoked and
match-but-expired. -/
theorem verify_error_paths_c4 (hash : String → String) (nowT : Int)
    (store : List RefreshToken) (tok : String) :
    (is_valid_token_format tok = false →
      verifyTraced hash nowT store tok = (none, 0)) ∧
    (verify_refresh_token hash nowT store tok = none ∨
      ∃ r ∈ store, verify_refresh_token hash nowT store tok = some r) ∧
    ((∀ t ∈ store, t.token_hash.isSome = true) →
      (∀ t ∈ store, t.token_hash = some (hash tok) →
        t.revoked = true ∨ t.expires_at ≤ nowT) →
      verify_refresh_token hash nowT store tok = none) := by
  refine ⟨fun hfmt => verify_invalid_fmt hash nowT store tok hfmt, ?_, ?_⟩
  · cases hv : verify_refresh_token hash nowT store tok with
    | none => exact Or.inl rfl
    | some r => exact Or.inr ⟨r, verify_mem hash nowT store tok r hv, rfl⟩
  · exact fun hall hstale => verify_none_of_all_stale hash nowT store tok hall hstale

/-- C4 witness: a malformed token is rejected with zero store queries, and
an expired digest match yields not-found. -/
theorem verify_error_paths_c4_witness :
    verifyTraced (fun s => s) 0 [activeRec] "not-a-uuid" = (none, 0) ∧
    verify_refresh_token (fun _ => "h1") 200 [activeRec]
      "123e4567-e89b-42d3-a456-426614174000" = none :=
  ⟨(verify_error_paths_c4 (fun s => s) 0 [activeRec] "not-a-uuid").1 (by decide),
   (verify_error_paths_c4 (fun _ => "h1") 200 [activeRec]
     "123e4567-e89b-42d3-a456-426614174000").2.2 (by decide) (by decide)⟩

/-- A non-revoked record whose expiry instant (5) is already in the past at
instant 10. -/
def expiredRec : RefreshToken :=
  { id := 3, token_hash := some "h3", user_id := 7, expires_at := 5,
    revoked := false, created_at := 0, device_info := none, ip_address := none }

/-- C5. Expiry boundary, evaluated at the failing input: at instant 10 the
record is expired, `verify_refresh_token` refuses it (also at the boundary
instant 5 itself), yet `get_active_sessions` (GET /sessions) still lists it,
because its filter compares `expires_at` against `timedelta(days=0)` — the
zero duration — instead of the current instant. -/
theorem sessions_expiry_boundary_c5 :
    expiredRec.expires_at < 10 ∧ expiredRec.revoked = false ∧
    verify_refresh_token (fun _ => "h3") 10 [expiredRec]
      "123e4567-e89b-42d3-a456-426614174000" = none ∧
    verify_refresh_token (fun _ => "h3") 5 [expiredRec]
      "123e4567-e89b-42d3-a456-426614174000" = none ∧
    get_active_sessions 7 [expiredRec] = [expiredRec] := by decide

theorem aux_filter_length_split (p : RefreshToken → Bool) (l : List RefreshToken) :
    (l.filter p).length + (l.filter (fun t => !(p t))).length = l.length := by
  induction l with
  | nil => rfl
  | cons a ts ih =>
    cases hp : p a <;> simp [List.filter_cons, hp, ← ih] <;> omega

/-- C6. `clean_expired_tokens` deletes exactly the records with
`expires_at < now`, regardless of the revoked flag — a record with
`expires_at > now` (or `= now`) survives — and returns the number of
records removed. -/
theorem sweep_exact_c6 (nowT : Int) (store : List RefreshToken) :
    (clean_expired_tokens nowT store).1 + (clean_expired_tokens nowT store).2.length
      = store.length ∧
    ∀ t, t ∈ (clean_expired_tokens nowT store).2 ↔
      (t ∈ store ∧ ¬ t.expires_at < nowT) := by
  constructor
  · have h := aux_filter_length_split (fun t => decide (t.expires_at < nowT)) store
    simp only [clean_expired_tokens, decide_not]
    exact h
  · intro t
    simp [clean_expired_tokens, List.mem_filter]

/-- C6 witness: sweeping `[expiredRec, activeRec]` at instant 10 removes
exactly the expired record and reports one removal. -/
theorem sweep_exact_c6_witness :
    (clean_expired_tokens 10 [expiredRec, activeRec]).1
      + (clean_expired_tokens 10 [expiredRec, activeRec]).2.length = 2 ∧
    (expiredRec ∈ (clean_expired_tokens 10 [expiredRec, activeRec]).2 ↔
      (expiredRec ∈ [expiredRec, activeRec] ∧ ¬ expiredRec.expires_at < 10)) :=
  ⟨(sweep_exact_c6 10 [expiredRec, activeRec]).1,
   (sweep_exact_c6 10 [expiredRec, activeRec]).2 expiredRec⟩

/-- A non-revoked but already-expired record of user 9 (at any instant
later than 0). -/
def staleRec : RefreshToken :=
  { id := 4, token_hash := some "h4", user_id := 9, expires_at := 0,
    revoked := false, created_at := 0, device_info := none, ip_address := none }

/-- C7 counterexample: at instant 3, user 9 has zero active records (the
only one is expired), yet `revoke_all_user_tokens` reports 1 record
affected and does revoke the expired record — the affected set is not the
set of active records and the count is not the active count. -/
theorem revoke_all_counterexample_c7 :
    (revoke_all_user_tokens 9 [staleRec]).1 = 1 ∧
    ([staleRec].filter (fun t =>
      decide (t.user_id = 9 ∧ t.revoked = false ∧ (3 : Int) < t.expires_at))).length = 0 ∧
    ∃ t ∈ (revoke_all_user_tokens 9 [staleRec]).2,
      t.revoked = true ∧ t.expires_at ≤ 3 := by decide

/-- C7 amended: `revoke_all_user_tokens` sets `revoked = true` for every
record of the user that is not yet revoked, regardless of expiry — hence
for every active record — and returns the number of not-yet-revoked
records of that user; records of other users are untouched. -/
theorem revoke_all_amended_c7 (uid : Int) (store : List RefreshToken) :
    (revoke_all_user_tokens uid store).1
      = (store.filter (fun t => decide (t.user_id = uid ∧ t.revoked = false))).length ∧
    (∀ t ∈ (revoke_all_user_tokens uid store).2, t.user_id = uid → t.revoked = true) ∧
    (∀ t ∈ (revoke_all_user_tokens uid store).2, t.user_id ≠ uid → t ∈ store) := by
  refine ⟨rfl, ?_, ?_⟩
  · intro t ht hu
    simp only [revoke_all_user_tokens] at ht
    obtain ⟨t0, ht0, hft⟩ := List.mem_map.mp ht
    by_cases hc : t0.user_id = uid ∧ t0.revoked = false
    · rw [if_pos hc] at hft
      rw [← hft]
    · rw [if_neg hc] at hft
      subst hft
      cases hrv : t0.revoked with
      | false => exact absurd ⟨hu, hrv⟩ hc
      | true => rfl
  · intro t ht hu
    simp only [revoke_all_user_tokens] at ht
    obtain ⟨t0, ht0, hft⟩ := List.mem_map.mp ht
    by_cases hc : t0.user_id = uid ∧ t0.revoked = false
    · rw [if_pos hc] at hft
      rw [← hft] at hu
      exact absurd hc.1 (by simpa using hu)
    · rw [if_neg hc] at hft
      rw [← hft]
      exact ht0

/-- C7 amended witness: over `[staleRec, activeRec]` (users 9 and 7) the
bulk revoke for user 9 reports one record and revokes every record of
user 9. -/
theorem revoke_all_amended_c7_witness :
    (revoke_all_user_tokens 9 [staleRec, activeRec]).1 = 1 ∧
    ∀ t ∈ (revoke_all_user_tokens 9 [staleRec, activeRec]).2,
      t.user_id = 9 → t.revoked = true :=
  ⟨(revoke_all_amended_c7 9 [staleRec, activeRec]).1,
   (revoke_all_amended_c7 9 [staleRec, activeRec]).2.1⟩

/-- C8 counterexample: a malformed refresh token makes `POST /refresh` fail
with status 400 (code `invalid_token_format`), not 401 as claimed. -/
theorem refresh_status_counterexample_c8 :
    (refresh_access_token (fun s => s) (fun u => u) 0 []
      { raw := "123e4567-e89b-42d3-a456-426614174000", expiresAt := 10,
        createdAt := 0, device_info := none, ip_address := none, newId := 2 }
      false "not-a-uuid" []).1
      = RefreshOutcome.err 400 "invalid_token_format"
          "The refresh token format is invalid" ∧
    (400 : Nat) ≠ 401 := by decide

/-- C8 amended: every failing `POST /refresh` response carries a
`{code, message}` error body with code among `invalid_token_format` (status
400), `invalid_token` (401), `user_not_found` (401) and
`token_rotation_error` (500). -/
theorem refresh_failure_taxonomy_c8 (hash jwtEncode : String → String)
    (nowT : Int) (users : List AdminUser) (a : RotateArgs) (rotateFails : Bool)
    (tok : String) (store : List RefreshToken) :
    (∃ resp, (refresh_access_token hash jwtEncode nowT users a rotateFails tok store).1
      = RefreshOutcome.ok resp) ∨
    (refresh_access_token hash jwtEncode nowT users a rotateFails tok store).1
      = RefreshOutcome.err 400 "invalid_token_format"
          "The refresh token format is invalid" ∨
    (refresh_access_token hash jwtEncode nowT users a rotateFails tok store).1
      = RefreshOutcome.err 401 "invalid_token" "Invalid or expired refresh token" ∨
    (refresh_access_token hash jwtEncode nowT users a rotateFails tok store).1
      = RefreshOutcome.err 401 "user_not_found"
          "User associated with token not found" ∨
    (refresh_access_token hash jwtEncode nowT users a rotateFails tok store).1
      = RefreshOutcome.err 500 "token_rotation_error"
          "Failed to rotate refresh token" := by
  unfold refresh_access_token
  by_cases hfmt : is_valid_token_format tok = false
  · rw [if_pos hfmt]
    right; left; rfl
  · rw [if_neg hfmt]
    cases verify_refresh_token hash nowT store tok with
    | none =>
      right; right; left; rfl
    | some db_token =>
      dsimp only
      cases users.find? (fun u => decide (u.id = db_token.user_id)) with
      | none =>
        right; right; right; left; rfl
      | some user =>
        dsimp only
        cases rotate_refresh_token hash db_token.id a.raw user.id a.expiresAt
            a.createdAt a.device_info a.ip_address a.newId rotateFails store with
        | mk res store1 =>
          cases res with
          | error msg =>
            right; right; right; right; rfl
          | ok pair =>
            cases pair with
            | mk newRaw newRec =>
              exact Or.inl ⟨_, rfl⟩

/-- A legacy row stored before the `token_hash` migration (NULL digest). -/
def legacyRec : RefreshToken :=
  { id := 5, token_hash := none, user_id := 9, expires_at := 100,
    revoked := false, created_at := 0, device_info := none, ip_address := none }

/-- C9 (implicit). Legacy-schema fallback: when the stored records carry no
`token_hash`, `verify_refresh_token` returns, for every well-formed input
token, the first record with `user_id > 0` that is neither revoked nor
expired — independently of which raw token string was presented, so two
runs with different well-formed inputs return the same record. -/
theorem legacy_fallback_c9 (hash : String → String) (nowT : Int)
    (store : List RefreshToken) (t1 t2 : String)
    (hleg : ∀ t ∈ store, t.token_hash = none)
    (h1 : is_valid_token_format t1 = true)
    (h2 : is_valid_token_format t2 = true) :
    verify_refresh_token hash nowT store t1
      = (store.filter (fun t =>
          decide (0 < t.user_id ∧ t.revoked = false ∧ nowT < t.expires_at))).head? ∧
    verify_refresh_token hash nowT store t1
      = verify_refresh_token hash nowT store t2 := by
  have hh : ∀ a, store.head? = some a → a.token_hash = none :=
    fun a ha => hleg a (auxHeadMem ha)
  constructor
  · exact verify_fallback hash nowT store t1 h1 hh
  · rw [verify_fallback hash nowT store t1 h1 hh,
      verify_fallback hash nowT store t2 h2 hh]

/-- C9 witness: over a legacy store, two different well-formed tokens both
verify to the same (first active) record. -/
theorem legacy_fallback_c9_witness :
    verify_refresh_token (fun s => s) 0 [legacyRec]
      "123e4567-e89b-42d3-a456-426614174000" = some legacyRec ∧
    verify_refresh_token (fun s => s) 0 [legacyRec]
      "123e4567-e89b-42d3-a456-426614174000"
    = verify_refresh_token (fun s => s) 0 [legacyRec]
      "ffffffff-ffff-4fff-bfff-ffffffffffff" :=
  ⟨(legacy_fallback_c9 (fun s => s) 0 [legacyRec]
      "123e4567-e89b-42d3-a456-426614174000" "ffffffff-ffff-4fff-bfff-ffffffffffff"
      (by decide) (by decide) (by decide)).1,
   (legacy_fallback_c9 (fun s => s) 0 [legacyRec]
      "123e4567-e89b-42d3-a456-426614174000" "ffffffff-ffff-4fff-bfff-ffffffffffff"
      (by decide) (by decide) (by decide)).2⟩

/-- C10 (implicit). On `POST /refresh`, when the presented token verifies
to record `r` but no user with `r.user_id` exists, the handler revokes the
record (its `revoked` flag is true in the resulting store) and answers 401
with code `user_not_found`. -/
theorem refresh_missing_user_revokes_c10 (hash jwtEncode : String → String)
    (nowT : Int) (users : List AdminUser) (a : RotateArgs) (rotateFails : Bool)
    (tok : String) (store : List RefreshToken) (r : RefreshToken)
    (hfmt : is_valid_token_format tok = true)
    (hver : verify_refresh_token hash nowT store tok = some r)
    (huser : ∀ u ∈ users, u.id ≠ r.user_id)
    (hnodup : (ids store).Nodup) :
    (refresh_access_token hash jwtEncode nowT users a rotateFails tok store).1
      = RefreshOutcome.err 401 "user_not_found"
          "User associated with token not found" ∧
    ∀ t ∈ (refresh_access_token hash jwtEncode nowT users a rotateFails tok store).2,
      t.id = r.id → t.revoked = true := by
  have hmem := verify_mem hash nowT store tok r hver
  have hfind : users.find? (fun u => decide (u.id = r.user_id)) = none := by
    apply List.find?_eq_none.mpr
    intro u hu
    simp [huser u hu]
  have hfmt2 : ¬ is_valid_token_format tok = false := by rw [hfmt]; simp
  obtain ⟨hfound, hstore⟩ := revoke_refresh_token_found r.id store ⟨r, hmem, rfl⟩
  unfold refresh_access_token
  rw [if_neg hfmt2, hver]
  dsimp only
  rw [hfind]
  constructor
  · rfl
  · intro t ht hid
    have ht2 : t ∈ setRevokedFirst r.id store := by
      rw [← hstore]
      exact ht
    exact setRevokedFirst_id_revoked r.id store hnodup ⟨r, hmem, rfl⟩ t ht2 hid

/-- C10 witness: with an empty user table, refreshing with the raw token of
`activeRec` answers 401 `user_not_found` and leaves the record revoked. -/
theorem refresh_missing_user_revokes_c10_witness :
    (refresh_access_token (fun _ => "h1") (fun u => u) 0 []
      { raw := "ffffffff-ffff-4fff-bfff-ffffffffffff", expiresAt := 10,
        createdAt := 0, device_info := none, ip_address := none, newId := 2 }
      false "123e4567-e89b-42d3-a456-426614174000" [activeRec]).1
      = RefreshOutcome.err 401 "user_not_found"
          "User associated with token not found" ∧
    ∀ t ∈ (refresh_access_token (fun _ => "h1") (fun u => u) 0 []
      { raw := "ffffffff-ffff-4fff-bfff-ffffffffffff", expiresAt := 10,
        createdAt := 0, device_info := none, ip_address := none, newId := 2 }
      false "123e4567-e89b-42d3-a456-426614174000" [activeRec]).2,
      t.id = 1 → t.revoked = true :=
  refresh_missing_user_revokes_c10 (fun _ => "h1") (fun u => u) 0 []
    { raw := "ffffffff-ffff-4fff-bfff-ffffffffffff", expiresAt := 10,
      createdAt := 0, device_info := none, ip_address := none, newId := 2 }
    false "123e4567-e89b-42d3-a456-426614174000" [activeRec] activeRec
    (by decide) (by decide) (by decide) (by decide)
